import Mathlib

/-
Verification of the autonomous line-following core of the MPP repository,
shallowly embedded from src/wise_tello/wise_tello_multiplecolor_Hf.py
(class WiseTelloHough).  Pure vision math (HSV thresholding, contour
selection via image moments) is modelled as functions of the pixel or
contour data handed to the OpenCV calls; the main control loop (run,
lines 761-867) is modelled as a step function on the controller state,
taking the per-cycle external inputs (frame/detection outcome, pressed
key, battery poll result, actuator successes, wall clock) as arguments.
Stored float quantities (the line angle in degrees, line length) are
modelled as exact rationals; the real-valued angle/length formulas of the
contour extractor are stated with real arctan/sqrt where the claims
mention them.
-/

namespace VisionConfig

/-- MIN_LINE_AREA, source line 96: minimum contour area for a valid line. -/
def MIN_LINE_AREA : ℚ := 500

/-- CENTER_TOLERANCE, source line 97: pixel tolerance for centering. -/
def CENTER_TOLERANCE : ℤ := 50

/-- FPS, source line 117. -/
def FPS : ℕ := 30

/-- CAMERA_WIDTH, source line 115. -/
def CAMERA_WIDTH : ℤ := 960

/-- CAMERA_HEIGHT, source line 116. -/
def CAMERA_HEIGHT : ℤ := 720

end VisionConfig

namespace FlightConfig

/-- FORWARD_SPEED, source line 121. -/
def FORWARD_SPEED : ℤ := 40

/-- SIDE_SPEED, source line 122. -/
def SIDE_SPEED : ℤ := 30

/-- ROTATION_SPEED, source line 123. -/
def ROTATION_SPEED : ℤ := 50

/-- VERTICAL_SPEED, source line 124. -/
def VERTICAL_SPEED : ℤ := 30

/-- ROTATION_THRESHOLD, source line 127: degrees threshold for rotation. -/
def ROTATION_THRESHOLD : ℚ := 20

/-- MAX_FLIGHT_TIME, source line 130: seconds. -/
def MAX_FLIGHT_TIME : ℤ := 300

/-- LOW_BATTERY_THRESHOLD, source line 131: percent. -/
def LOW_BATTERY_THRESHOLD : ℤ := 20

/-- EMERGENCY_BATTERY, source line 132: percent. -/
def EMERGENCY_BATTERY : ℤ := 10

end FlightConfig

/-- One pixel of the HSV image produced by cv2.cvtColor (source line 318):
hue 0-180, saturation and value 0-255. -/
structure HSVPixel where
  h : ℕ
  s : ℕ
  v : ℕ
deriving DecidableEq

/-- cv2.inRange on a single pixel: componentwise lower <= value <= upper,
both bounds inclusive. -/
def inRangeHSV (p : HSVPixel) (lh ls lv uh us uv : ℕ) : Bool :=
  decide (lh ≤ p.h) && decide (p.h ≤ uh) &&
  decide (ls ≤ p.s) && decide (p.s ≤ us) &&
  decide (lv ≤ p.v) && decide (p.v ≤ uv)

/-- First red range of COLOR_RANGES (source lines 73-74):
lower_1 = [0,120,70], upper_1 = [10,255,255]. -/
def redRange1 (p : HSVPixel) : Bool := inRangeHSV p 0 120 70 10 255 255

/-- Second red range of COLOR_RANGES (source lines 75-76):
lower_2 = [170,120,70], upper_2 = [180,255,255]. -/
def redRange2 (p : HSVPixel) : Bool := inRangeHSV p 170 120 70 180 255 255

/-- Red mask construction for one pixel (source lines 324-328):
mask1 = inRange(lower_1, upper_1); mask2 = inRange(lower_2, upper_2);
color_mask = bitwise_or(mask1, mask2). -/
def redMaskPixel (p : HSVPixel) : Bool := redRange1 p || redRange2 p

/-- A contour as returned by cv2.findContours (source line 341): a list of
integer pixel coordinates of the boundary polygon. -/
abbrev Contour := List (ℤ × ℤ)

/-- Consecutive cyclic vertex pairs of a contour polygon. -/
def cyclePairs (c : Contour) : List ((ℤ × ℤ) × (ℤ × ℤ)) :=
  match c with
  | [] => []
  | p :: ps => (p :: ps).zip (ps ++ [p])

/-- Cross product term of one polygon edge, as used by the shoelace
formula underlying cv2.contourArea and cv2.moments. -/
def crossTerm (pq : (ℤ × ℤ) × (ℤ × ℤ)) : ℤ :=
  pq.1.1 * pq.2.2 - pq.2.1 * pq.1.2

/-- Zeroth polygon moment (signed area) computed by cv2.moments via
Green's theorem: m00 = (1/2) * sum of edge cross terms. -/
def moment00 (c : Contour) : ℚ :=
  (((cyclePairs c).map crossTerm).sum : ℤ) / 2

/-- First polygon moment in x computed by cv2.moments:
m10 = (1/6) * sum over edges of (x_i + x_j) * cross. -/
def moment10 (c : Contour) : ℚ :=
  (((cyclePairs c).map (fun pq => (pq.1.1 + pq.2.1) * crossTerm pq)).sum : ℤ) / 6

/-- First polygon moment in y computed by cv2.moments:
m01 = (1/6) * sum over edges of (y_i + y_j) * cross. -/
def moment01 (c : Contour) : ℚ :=
  (((cyclePairs c).map (fun pq => (pq.1.2 + pq.2.2) * crossTerm pq)).sum : ℤ) / 6

/-- cv2.contourArea (source line 346): absolute value of the Green-theorem
signed area, i.e. |m00|. -/
def contourArea (c : Contour) : ℚ := |moment00 c|

/-- cv2.boundingRect (source line 363): (x, y, w, h) of the upright
bounding box; OpenCV widths and heights are max-min+1. -/
def boundingRect (c : Contour) : ℤ × ℤ × ℕ × ℕ :=
  match c with
  | [] => (0, 0, 0, 0)
  | p :: ps =>
    let xs := (p :: ps).map Prod.fst
    let ys := (p :: ps).map Prod.snd
    let xmin := xs.foldl min p.1
    let xmax := xs.foldl max p.1
    let ymin := ys.foldl min p.2
    let ymax := ys.foldl max p.2
    (xmin, ymin, (xmax - xmin + 1).toNat, (ymax - ymin + 1).toNat)

/-- Python int() applied to a rational: truncation toward zero, as used in
int(M[m10]/M[m00]) at source lines 359-360. -/
def pyInt (q : ℚ) : ℤ := if 0 ≤ q then ⌊q⌋ else ⌈q⌉

/-- Python max(list, key=f) starting from a first element: keeps the
earliest element of maximal key (strictly greater replaces). -/
def pyMax (f : Contour → ℚ) : Contour → List Contour → Contour
  | best, [] => best
  | best, c :: cs => pyMax f (if f best < f c then c else best) cs

/-- Area filter of detect_line_contour (source lines 344-348): keep the
contours with contourArea strictly greater than MIN_LINE_AREA. -/
def valid_contours (cs : List Contour) : List Contour :=
  cs.filter (fun c => VisionConfig.MIN_LINE_AREA < contourArea c)

/-- Result data of a successful contour detection: the selected contour,
the truncated centroid stored in line_center_x/line_center_y, and the
bounding-box width and height feeding line_angle and line_length. -/
structure ContourObs where
  main : Contour
  cx : ℤ
  cy : ℤ
  bw : ℕ
  bh : ℕ
deriving DecidableEq

/-- Pure selection logic of detect_line_contour (source lines 341-376),
as a function of the contour list returned by cv2.findContours on the
processed mask: filter by area, pick the largest survivor (Python max,
first on ties), return none if no survivor or if its m00 is zero,
otherwise the truncated moment centroid and the bounding box. -/
def detect_line_contour (cs : List Contour) : Option ContourObs :=
  match valid_contours cs with
  | [] => none
  | c :: rest =>
    let main := pyMax contourArea c rest
    if moment00 main = 0 then none
    else
      some { main := main
             cx := pyInt (moment10 main / moment00 main)
             cy := pyInt (moment01 main / moment00 main)
             bw := (boundingRect main).2.2.1
             bh := (boundingRect main).2.2.2 }

/-- The only property of cv2.findContours the development relies on: every
returned contour is a nonempty list of coordinates of pixels that are set
in the mask it was computed from. -/
def ContoursOf (mask : ℤ → ℤ → Bool) (cs : List Contour) : Prop :=
  ∀ c ∈ cs, c ≠ [] ∧ ∀ p ∈ c, mask p.1 p.2 = true

/-- The all-zero (empty) mask. -/
def zeroMask : ℤ → ℤ → Bool := fun _ _ => false

/-- Real-valued atan2 used by np.arctan2. -/
noncomputable def atan2R (y x : ℝ) : ℝ :=
  if 0 < x then Real.arctan (y / x)
  else if x < 0 ∧ 0 ≤ y then Real.arctan (y / x) + Real.pi
  else if x < 0 then Real.arctan (y / x) - Real.pi
  else if 0 < y then Real.pi / 2
  else if y < 0 then -(Real.pi / 2)
  else 0

/-- The float stored into line_angle by the contour detector (source line
364): np.arctan2(h, w) * 180 / pi of the stored bounding box. -/
noncomputable def obsAngle (r : ContourObs) : ℝ :=
  atan2R (r.bh : ℝ) (r.bw : ℝ) * 180 / Real.pi

/-- The float stored into line_length by the contour detector (source line
365): np.sqrt(w*w + h*h) of the stored bounding box. -/
noncomputable def obsLength (r : ContourObs) : ℝ :=
  Real.sqrt ((r.bw : ℝ) ^ 2 + (r.bh : ℝ) ^ 2)

/-- AVAILABLE_COLORS entries (source line 64). -/
inductive LineColor where
  | white
  | red
  | green
  | yellow
  | blue
deriving DecidableEq

/-- The two detection_method values accepted by switch_detection_method
(source lines 289-301). -/
inductive DetectionMethod where
  | contour
  | hough
deriving DecidableEq

/-- Keys handled by the main loop (source lines 809-855); kNone stands for
any cycle in which no handled key was pressed. -/
inductive Key where
  | kT
  | kL
  | kA
  | kS
  | kC
  | kH
  | kO
  | k1
  | k2
  | k3
  | k4
  | k5
  | kEsc
  | kNone
deriving DecidableEq

/-- Outcome of detect_line on the current frame (source line 769), treated
as a per-cycle external input: the detected flag together with the values
the detector would store into line_center_x/y, line_angle and line_length
when detected. Float angle and length are modelled as exact rationals. -/
structure DetectOutcome where
  detected : Bool
  cx : ℤ
  cy : ℤ
  angle : ℚ
  length : ℚ
deriving DecidableEq

/-- Mutable state of WiseTelloHough (fields set in init, source
lines 140-181) that the control loop reads or writes. -/
structure DroneState where
  connected : Bool
  is_flying : Bool
  autonomous_mode : Bool
  detection_method : DetectionMethod
  selected_color : LineColor
  color_index : ℕ
  battery_level : ℤ
  flight_start_time : ℤ
  line_detected : Bool
  line_lost_count : ℕ
  max_line_lost : ℕ
  line_center_x : ℤ
  line_center_y : ℤ
  line_angle : ℚ
  line_length : ℚ
  left_right_velocity : ℤ
  for_back_velocity : ℤ
  up_down_velocity : ℤ
  yaw_velocity : ℤ
  frame_center_x : ℤ
  frame_center_y : ℤ
  frames_processed : ℕ
  lines_detected : ℕ
deriving DecidableEq

/-- External inputs consumed by one iteration of the run loop: the frame
acquisition outcome (none models get_frame returning None) together with
what the selected detector reports on it, the pressed key, the battery
poll result (none models a get_battery exception), success of each
actuator call that might be made this cycle, and the wall clock. -/
structure CycleInput where
  frame : Option DetectOutcome
  key : Key
  batteryRead : Option ℤ
  sendOk : Bool
  tovOk : Bool
  landOk : Bool
  emgOk : Bool
  now : ℤ
deriving DecidableEq

/-- Observable outputs of one iteration: the rc velocity command actually
sent (none when send_movement_command returns early or the send raises),
whether tello.emergency() was invoked, whether the low battery warning
fired, and whether the loop body exited via break. -/
structure CycleOutput where
  sent : Option (ℤ × ℤ × ℤ × ℤ)
  emergencyCmd : Bool
  lowBatteryWarn : Bool
  brk : Bool
deriving DecidableEq

/-- Output of a cycle that was skipped at the top of the loop. -/
def skipOutput : CycleOutput :=
  { sent := none, emergencyCmd := false, lowBatteryWarn := false, brk := false }

/-- Wall-clock flight time, time.time() - flight_start_time (source
line 863). -/
def flightElapsed (s : DroneState) (now : ℤ) : ℤ := now - s.flight_start_time

/-- calculate_movement (source lines 474-530): bang-bang controller from
the stored line observation and frame center to the four velocity
channels, returned in source order (left_right, forward_back, up_down,
yaw). -/
def calculate_movement (s : DroneState) : ℤ × ℤ × ℤ × ℤ :=
  if s.line_detected = false then (0, 0, 0, 0)
  else
    let error_x := s.line_center_x - s.frame_center_x
    let error_y := s.line_center_y - s.frame_center_y
    let left_right_vel :=
      if VisionConfig.CENTER_TOLERANCE < |error_x| then
        if 0 < error_x then FlightConfig.SIDE_SPEED else -FlightConfig.SIDE_SPEED
      else 0
    let up_down_vel :=
      if VisionConfig.CENTER_TOLERANCE < |error_y| then
        if 0 < error_y then -FlightConfig.VERTICAL_SPEED else FlightConfig.VERTICAL_SPEED
      else 0
    let forward_back_vel :=
      if s.detection_method = DetectionMethod.hough then
        if |s.line_angle| < 45 then FlightConfig.FORWARD_SPEED
        else if 135 < |s.line_angle| then FlightConfig.FORWARD_SPEED
        else 0
      else FlightConfig.FORWARD_SPEED
    let yaw_vel :=
      if s.detection_method = DetectionMethod.hough ∧
         FlightConfig.ROTATION_THRESHOLD < |s.line_angle| then
        if 0 < s.line_angle then FlightConfig.ROTATION_SPEED else -FlightConfig.ROTATION_SPEED
      else 0
    (left_right_vel, forward_back_vel, up_down_vel, yaw_vel)

/-- emergency_land (source lines 549-561): when flying and connected,
clear autonomous_mode, invoke tello.emergency(), and on success clear
is_flying; an exception from the actuator (emgOk = false) leaves
is_flying set but autonomous_mode already cleared.  The Bool records
whether the emergency command was invoked. -/
def emergency_land (s : DroneState) (emgOk : Bool) : DroneState × Bool :=
  if s.is_flying && s.connected then
    if emgOk then
      ({ s with autonomous_mode := false, is_flying := false }, true)
    else
      ({ s with autonomous_mode := false }, true)
  else (s, false)

/-- update_battery (source lines 532-547): when connected, poll the
battery (read = none models a raising get_battery, keeping the last
value); store the reading, then if below EMERGENCY_BATTERY while flying
run emergency_land, else if below LOW_BATTERY_THRESHOLD while flying emit
the warning.  Returns (state, emergency command invoked, warning). -/
def update_battery (s : DroneState) (read : Option ℤ) (emgOk : Bool) :
    DroneState × Bool × Bool :=
  if s.connected = false then (s, false, false)
  else
    match read with
    | none => (s, false, false)
    | some b =>
      let s1 := { s with battery_level := b }
      if b < FlightConfig.EMERGENCY_BATTERY ∧ s1.is_flying = true then
        let r := emergency_land s1 emgOk
        (r.1, r.2, false)
      else if b < FlightConfig.LOW_BATTERY_THRESHOLD ∧ s1.is_flying = true then
        (s1, false, true)
      else (s1, false, false)

/-- takeoff (source lines 563-584): fail when not connected; fail when
battery_level < EMERGENCY_BATTERY; otherwise invoke tello.takeoff() and
on success set is_flying and reset flight_start_time to the current
clock.  A raising actuator call (tovOk = false) leaves the state
unchanged since it raises before the assignments. -/
def takeoff (s : DroneState) (tovOk : Bool) (now : ℤ) : Bool × DroneState :=
  if s.connected = false then (false, s)
  else if s.battery_level < FlightConfig.EMERGENCY_BATTERY then (false, s)
  else if tovOk then
    (true, { s with is_flying := true, flight_start_time := now })
  else (false, s)

/-- land (source lines 586-603): fail when not flying; otherwise clear
autonomous_mode, invoke tello.land(), and on success clear is_flying.  A
raising actuator call (landOk = false) leaves autonomous_mode already
cleared and is_flying still set. -/
def land (s : DroneState) (landOk : Bool) : Bool × DroneState :=
  if s.is_flying = false then (false, s)
  else
    let s1 := { s with autonomous_mode := false }
    if landOk then (true, { s1 with is_flying := false })
    else (false, s1)

/-- send_movement_command (source lines 605-620): return without sending
when not flying or not connected; otherwise send the four stored velocity
channels; a raising send (sendOk = false) marks the connection lost. -/
def send_movement_command (s : DroneState) (sendOk : Bool) :
    DroneState × Option (ℤ × ℤ × ℤ × ℤ) :=
  if s.is_flying = false ∨ s.connected = false then (s, none)
  else if sendOk then
    (s, some (s.left_right_velocity, s.for_back_velocity,
              s.up_down_velocity, s.yaw_velocity))
  else ({ s with connected := false }, none)

/-- AVAILABLE_COLORS (source line 64). -/
def AVAILABLE_COLORS : List LineColor :=
  [LineColor.white, LineColor.red, LineColor.green, LineColor.yellow, LineColor.blue]

/-- Index of a color in AVAILABLE_COLORS. -/
def colorIndexOf : LineColor → ℕ
  | LineColor.white => 0
  | LineColor.red => 1
  | LineColor.green => 2
  | LineColor.yellow => 3
  | LineColor.blue => 4

/-- change_color (source lines 263-276) for a valid color name: set
selected_color and color_index. -/
def change_color (s : DroneState) (c : LineColor) : DroneState :=
  { s with selected_color := c, color_index := colorIndexOf c }

/-- cycle_color (source lines 278-287): advance color_index modulo the
number of available colors and select that color. -/
def cycle_color (s : DroneState) : DroneState :=
  let idx := (s.color_index + 1) % AVAILABLE_COLORS.length
  { s with color_index := idx
           selected_color := AVAILABLE_COLORS.getD idx LineColor.white }

/-- Keyboard dispatch of the run loop (source lines 809-855).  Returns the
new state, whether the loop body breaks, and whether tello.emergency()
was invoked (only by the ESC branch). -/
def handle_key (s : DroneState) (i : CycleInput) : DroneState × Bool × Bool :=
  match i.key with
  | Key.kT => if s.is_flying = false then ((takeoff s i.tovOk i.now).2, false, false)
              else (s, false, false)
  | Key.kL => if s.is_flying then ((land s i.landOk).2, false, false)
              else (s, false, false)
  | Key.kA => if s.is_flying && !s.autonomous_mode then
                ({ s with autonomous_mode := true }, false, false)
              else (s, false, false)
  | Key.kS => if s.autonomous_mode then ({ s with autonomous_mode := false }, false, false)
              else (s, false, false)
  | Key.kC => (cycle_color s, false, false)
  | Key.kH => ({ s with detection_method := DetectionMethod.hough }, false, false)
  | Key.kO => ({ s with detection_method := DetectionMethod.contour }, false, false)
  | Key.k1 => (change_color s LineColor.white, false, false)
  | Key.k2 => (change_color s LineColor.red, false, false)
  | Key.k3 => (change_color s LineColor.green, false, false)
  | Key.k4 => (change_color s LineColor.yellow, false, false)
  | Key.k5 => (change_color s LineColor.blue, false, false)
  | Key.kEsc => let r := emergency_land s i.emgOk
                (r.1, true, r.2)
  | Key.kNone => (s, false, false)

/-- Frame bookkeeping of get_frame (source lines 241-261: resize to
960x720, set frame centers, count the frame) followed by the effect of
detect_line (source line 769: store the observation fields and count the
detection only when detected) and the line-lost counter update (source
lines 771-775). -/
def vision_step (s : DroneState) (det : DetectOutcome) : DroneState :=
  let s1 := { s with frame_center_x := VisionConfig.CAMERA_WIDTH / 2
                     frame_center_y := VisionConfig.CAMERA_HEIGHT / 2
                     frames_processed := s.frames_processed + 1 }
  let s2 :=
    if det.detected then
      { s1 with line_detected := true
                line_center_x := det.cx
                line_center_y := det.cy
                line_angle := det.angle
                line_length := det.length
                lines_detected := s1.lines_detected + 1 }
    else { s1 with line_detected := false }
  if s2.line_detected then { s2 with line_lost_count := 0 }
  else { s2 with line_lost_count := s2.line_lost_count + 1 }

/-- Autonomous branch of the run loop (source lines 777-792): while
autonomous and flying, either store calculate_movement when the line is
detected, or zero the four channels and, if the lost streak exceeds
max_line_lost, drop out of autonomous mode. -/
def auto_step (s : DroneState) : DroneState :=
  if s.autonomous_mode && s.is_flying then
    if s.line_detected then
      let v := calculate_movement s
      { s with left_right_velocity := v.1
               for_back_velocity := v.2.1
               up_down_velocity := v.2.2.1
               yaw_velocity := v.2.2.2 }
    else
      let s1 := { s with left_right_velocity := 0
                         for_back_velocity := 0
                         up_down_velocity := 0
                         yaw_velocity := 0 }
      if s1.max_line_lost < s1.line_lost_count then
        { s1 with autonomous_mode := false }
      else s1
  else s

/-- Tail of the run loop body after the vision and autonomous steps:
send_movement_command (source line 795), keyboard handling (source lines
809-855; a break there skips the rest of the body), the throttled battery
update every FPS*3 frames (source lines 857-859) and the maximum flight
time check which lands and breaks (source lines 861-867). -/
def cycleTail (s : DroneState) (i : CycleInput) : DroneState × CycleOutput :=
  let p := send_movement_command s i.sendOk
  let q := handle_key p.1 i
  if q.2.1 then
    (q.1, { sent := p.2, emergencyCmd := q.2.2, lowBatteryWarn := false, brk := true })
  else
    let r := if q.1.frames_processed % (VisionConfig.FPS * 3) = 0 then
               update_battery q.1 i.batteryRead i.emgOk
             else (q.1, false, false)
    if r.1.is_flying = true ∧ FlightConfig.MAX_FLIGHT_TIME < flightElapsed r.1 i.now then
      ((land r.1 i.landOk).2,
       { sent := p.2, emergencyCmd := q.2.2 || r.2.1, lowBatteryWarn := r.2.2, brk := true })
    else
      (r.1, { sent := p.2, emergencyCmd := q.2.2 || r.2.1, lowBatteryWarn := r.2.2, brk := false })

/-- One iteration of the main loop of run (source lines 761-867).  A frame
acquisition failure (get_frame returns None, in particular whenever not
connected) skips the whole body via continue. -/
def runCycle (s : DroneState) (i : CycleInput) : DroneState × CycleOutput :=
  match (if s.connected then i.frame else none) with
  | none => (s, skipOutput)
  | some det => cycleTail (auto_step (vision_step s det)) i

/-- A connected, flying, autonomous state using the contour method, as
reached after takeoff at clock 0 and pressing the autonomous key. -/
def baseState : DroneState :=
  { connected := true
    is_flying := true
    autonomous_mode := true
    detection_method := DetectionMethod.contour
    selected_color := LineColor.white
    color_index := 0
    battery_level := 50
    flight_start_time := 0
    line_detected := false
    line_lost_count := 0
    max_line_lost := 30
    line_center_x := 0
    line_center_y := 0
    line_angle := 0
    line_length := 0
    left_right_velocity := 0
    for_back_velocity := 0
    up_down_velocity := 0
    yaw_velocity := 0
    frame_center_x := 480
    frame_center_y := 360
    frames_processed := 0
    lines_detected := 0 }

/-- A grounded state with healthy battery. -/
def groundedState : DroneState :=
  { baseState with is_flying := false, autonomous_mode := false }

/-- A grounded state with battery below the emergency threshold. -/
def groundedLowBat : DroneState :=
  { groundedState with battery_level := 9 }

/-- Cycle input with a frame present but no line detected, no key, a
healthy battery reading and all actuator calls succeeding. -/
def lostInput : CycleInput :=
  { frame := some { detected := false, cx := 0, cy := 0, angle := 0, length := 0 }
    key := Key.kNone
    batteryRead := some 50
    sendOk := true
    tovOk := true
    landOk := true
    emgOk := true
    now := 0 }

/-- Cycle input whose frame carries a detected line 100 px right of the
frame center and whose battery poll reads 9 percent. -/
def lowBatDetInput : CycleInput :=
  { lostInput with
      frame := some { detected := true, cx := 580, cy := 360, angle := 0, length := 0 }
      batteryRead := some 9 }

/-- Flying autonomous state one frame short of the battery poll cycle. -/
def prePollState : DroneState := { baseState with frames_processed := 89 }

/-- Input that presses the takeoff key with everything else quiet. -/
def tKeyInput : CycleInput := { lostInput with frame := none, key := Key.kT }

/-- Iterated loop cycles that never see the line, starting from
baseState. -/
def iterLost : ℕ → DroneState
  | 0 => baseState
  | n + 1 => (runCycle (iterLost n) lostInput).1

/-- A square contour of side 100, area 10000. -/
def bigSquare : Contour := [(0, 0), (100, 0), (100, 100), (0, 100)]

/-- A square contour of side 5, area 25, below MIN_LINE_AREA. -/
def smallSquare : Contour := [(0, 0), (5, 0), (5, 5), (0, 5)]

/-- Example contour list with one noise blob and one line blob. -/
def exContours : List Contour := [smallSquare, bigSquare]

/-- Safety invariant relating the two mode flags: whenever the drone is
not flying, autonomous mode is off.  It holds of the initial state
(source lines 146-147) and is preserved by every loop cycle. -/
def GroundedImpliesManual (s : DroneState) : Prop :=
  s.is_flying = false → s.autonomous_mode = false

/-- Flying state whose last detection put the line 80 px right of the
frame center (the spec scenario with tolerance 50). -/
def detState : DroneState :=
  { baseState with line_detected := true, line_center_x := 560, line_center_y := 360 }

/-- Flying state using the Hough method with a stored angle of 10
degrees and a centered line. -/
def houghState : DroneState :=
  { detState with detection_method := DetectionMethod.hough
                  line_center_x := 480
                  line_angle := 10 }

/-- Python max over a nonempty list returns one of its elements. -/
theorem pyMax_mem (f : Contour → ℚ) (b : Contour) (l : List Contour) :
    pyMax f b l ∈ b :: l := by
  induction l generalizing b with
  | nil => simp [pyMax]
  | cons c cs ih =>
    rw [pyMax]
    rcases List.mem_cons.mp (ih (if f b < f c then c else b)) with h1 | h1
    · rw [h1]
      split_ifs <;> simp
    · simp [List.mem_cons, Or.inr (Or.inr h1)]

/-- Python max over a nonempty list dominates every element's key. -/
theorem pyMax_le (f : Contour → ℚ) (b : Contour) (l : List Contour) :
    ∀ x ∈ b :: l, f x ≤ f (pyMax f b l) := by
  induction l generalizing b with
  | nil =>
    intro x hx
    rw [List.mem_singleton.mp hx, pyMax]
  | cons c cs ih =>
    intro x hx
    rw [pyMax]
    have hb : f b ≤ f (if f b < f c then c else b) := by
      split_ifs with h
      · exact le_of_lt h
      · exact le_rfl
    have hc : f c ≤ f (if f b < f c then c else b) := by
      split_ifs with h
      · exact le_rfl
      · exact le_of_not_lt h
    rcases List.mem_cons.mp hx with h1 | h1
    · subst h1
      exact le_trans hb (ih _ _ (List.mem_cons_self _ _))
    · rcases List.mem_cons.mp h1 with h2 | h2
      · subst h2
        exact le_trans hc (ih _ _ (List.mem_cons_self _ _))
      · exact ih _ x (List.mem_cons_of_mem _ h2)

/-- C8: the red ColorProfile segmentation is the logical OR of the two
HSV threshold ranges; a pixel with hue at most 10 (near 0) or hue between
170 and 180 (near 179, the wraparound range) with saturation in [120,255]
and value in [70,255] is included in the mask, and a pixel of hue 90 is
excluded regardless of saturation and value. -/
theorem spec_c8_red_union :
    (∀ p : HSVPixel, redMaskPixel p = (redRange1 p || redRange2 p)) ∧
    (∀ p : HSVPixel, p.h ≤ 10 → 120 ≤ p.s → p.s ≤ 255 → 70 ≤ p.v → p.v ≤ 255 →
      redMaskPixel p = true) ∧
    (∀ p : HSVPixel, 170 ≤ p.h → p.h ≤ 180 → 120 ≤ p.s → p.s ≤ 255 → 70 ≤ p.v → p.v ≤ 255 →
      redMaskPixel p = true) ∧
    (∀ p : HSVPixel, p.h = 90 → redMaskPixel p = false) := by
  refine ⟨fun p => rfl, fun p h1 h2 h3 h4 h5 => ?_, fun p h1 h2 h3 h4 h5 h6 => ?_,
    fun p h => ?_⟩ <;>
    simp [redMaskPixel, redRange1, redRange2, inRangeHSV] <;> omega

/-- Witness for C8 at the concrete pixels of the claim: hue 2 and hue 179
with strong saturation and value are in the mask, hue 90 is not. -/
theorem spec_c8_witness :
    redMaskPixel { h := 2, s := 200, v := 200 } = true ∧
    redMaskPixel { h := 179, s := 200, v := 200 } = true ∧
    redMaskPixel { h := 90, s := 255, v := 255 } = false :=
  ⟨spec_c8_red_union.2.1 { h := 2, s := 200, v := 200 }
      (by decide) (by decide) (by decide) (by decide) (by decide),
   spec_c8_red_union.2.2.1 { h := 179, s := 200, v := 200 }
      (by decide) (by decide) (by decide) (by decide) (by decide) (by decide),
   spec_c8_red_union.2.2.2 { h := 90, s := 255, v := 255 } rfl⟩

/-- C4: whenever the stored observation is not detected,
calculate_movement is the all-zero command on all four channels; and a
contour list that findContours can produce from the all-zero mask is
empty, so detect_line_contour reports no detection. -/
theorem spec_c4_hover :
    (∀ s : DroneState, s.line_detected = false → calculate_movement s = (0, 0, 0, 0)) ∧
    (∀ cs : List Contour, ContoursOf zeroMask cs → detect_line_contour cs = none) := by
  constructor
  · intro s h
    simp [calculate_movement, h]
  · intro cs h
    have hnil : cs = [] := by
      cases cs with
      | nil => rfl
      | cons c rest =>
        obtain ⟨hne, hall⟩ := h c (List.mem_cons_self _ _)
        cases c with
        | nil => exact absurd rfl hne
        | cons p ps =>
          have := hall p (List.mem_cons_self _ _)
          simp [zeroMask] at this
    rw [hnil]
    rfl

/-- Witness for C4: a non-detected state yields the zero command and the
empty contour list yields no detection. -/
theorem spec_c4_witness :
    calculate_movement groundedState = (0, 0, 0, 0) ∧
    detect_line_contour [] = none :=
  ⟨spec_c4_hover.1 groundedState rfl,
   spec_c4_hover.2 [] (by simp [ContoursOf])⟩

/-- C5: for a detected observation the lateral channel is 0 when
|errorX| <= CENTER_TOLERANCE (the boundary included), +SIDE_SPEED when
errorX exceeds the tolerance and -SIDE_SPEED when it is below its
negation; the vertical channel is symmetric with VERTICAL_SPEED and
inverted sign (positive errorY descends). -/
theorem spec_c5_deadband (s : DroneState) (hdet : s.line_detected = true) :
    (|s.line_center_x - s.frame_center_x| ≤ VisionConfig.CENTER_TOLERANCE →
       (calculate_movement s).1 = 0) ∧
    (VisionConfig.CENTER_TOLERANCE < s.line_center_x - s.frame_center_x →
       (calculate_movement s).1 = FlightConfig.SIDE_SPEED) ∧
    (s.line_center_x - s.frame_center_x < -VisionConfig.CENTER_TOLERANCE →
       (calculate_movement s).1 = -FlightConfig.SIDE_SPEED) ∧
    (|s.line_center_y - s.frame_center_y| ≤ VisionConfig.CENTER_TOLERANCE →
       (calculate_movement s).2.2.1 = 0) ∧
    (VisionConfig.CENTER_TOLERANCE < s.line_center_y - s.frame_center_y →
       (calculate_movement s).2.2.1 = -FlightConfig.VERTICAL_SPEED) ∧
    (s.line_center_y - s.frame_center_y < -VisionConfig.CENTER_TOLERANCE →
       (calculate_movement s).2.2.1 = FlightConfig.VERTICAL_SPEED) := by
  refine ⟨?_, ?_, ?_, ?_, ?_, ?_⟩ <;> intro h <;>
    simp only [calculate_movement, hdet, Bool.true_eq_false, if_false] <;>
    split_ifs with h1 h2 <;>
    first
      | rfl
      | (exfalso
         first
           | linarith [le_abs_self (s.line_center_x - s.frame_center_x),
                       neg_abs_le (s.line_center_x - s.frame_center_x),
                       show (0 : ℤ) ≤ VisionConfig.CENTER_TOLERANCE by decide]
           | linarith [le_abs_self (s.line_center_y - s.frame_center_y),
                       neg_abs_le (s.line_center_y - s.frame_center_y),
                       show (0 : ℤ) ≤ VisionConfig.CENTER_TOLERANCE by decide])

/-- Witness for C5 at the spec scenario: line center (560,360), frame
center (480,360), so errorX = 80 beyond tolerance 50 gives lateral
+SIDE_SPEED, and errorY = 0 within tolerance gives vertical 0. -/
theorem spec_c5_witness :
    VisionConfig.CENTER_TOLERANCE < detState.line_center_x - detState.frame_center_x ∧
    (calculate_movement detState).1 = FlightConfig.SIDE_SPEED ∧
    (calculate_movement detState).2.2.1 = 0 :=
  ⟨by decide, (spec_c5_deadband detState rfl).2.1 (by decide),
   (spec_c5_deadband detState rfl).2.2.2.1 (by decide)⟩

/-- C6: for a detected observation, the Contour strategy gives constant
FORWARD_SPEED forward and zero yaw; the Hough strategy gives FORWARD_SPEED
exactly when |angle| < 45 or |angle| > 135 and 0 otherwise, and yaw 0 when
|angle| <= ROTATION_THRESHOLD, +ROTATION_SPEED when the angle exceeds the
threshold and -ROTATION_SPEED when it is below its negation. -/
theorem spec_c6_forward_yaw (s : DroneState) (hdet : s.line_detected = true) :
    (s.detection_method = DetectionMethod.contour →
       (calculate_movement s).2.1 = FlightConfig.FORWARD_SPEED ∧
       (calculate_movement s).2.2.2 = 0) ∧
    (s.detection_method = DetectionMethod.hough →
       ((|s.line_angle| < 45 ∨ 135 < |s.line_angle| →
           (calculate_movement s).2.1 = FlightConfig.FORWARD_SPEED) ∧
        (45 ≤ |s.line_angle| → |s.line_angle| ≤ 135 →
           (calculate_movement s).2.1 = 0) ∧
        (|s.line_angle| ≤ FlightConfig.ROTATION_THRESHOLD →
           (calculate_movement s).2.2.2 = 0) ∧
        (FlightConfig.ROTATION_THRESHOLD < s.line_angle →
           (calculate_movement s).2.2.2 = FlightConfig.ROTATION_SPEED) ∧
        (s.line_angle < -FlightConfig.ROTATION_THRESHOLD →
           (calculate_movement s).2.2.2 = -FlightConfig.ROTATION_SPEED))) := by
  constructor
  · intro hm
    simp only [calculate_movement, hdet, Bool.true_eq_false, if_false, hm]
    constructor <;> split_ifs <;> simp_all
  · intro hm
    refine ⟨?_, ?_, ?_, ?_, ?_⟩ <;>
      (try intro h) <;> (try intro h9) <;>
      simp only [calculate_movement, hdet, Bool.true_eq_false, if_false, hm] <;>
      split_ifs with h1 h2 <;>
      first
        | rfl
        | (exfalso
           rcases h with h | h <;>
             linarith [le_abs_self s.line_angle, neg_abs_le s.line_angle,
                       show (0 : ℚ) ≤ FlightConfig.ROTATION_THRESHOLD by decide])
        | (exfalso
           try simp only [true_and, not_lt] at h1
           linarith [le_abs_self s.line_angle, neg_abs_le s.line_angle,
                     show (0 : ℚ) ≤ FlightConfig.ROTATION_THRESHOLD by decide])

/-- Witness for C6: the contour state gives forward FORWARD_SPEED with
zero yaw, and the Hough state with angle 10 gives forward FORWARD_SPEED
and zero yaw since |10| < 45 and |10| <= 20. -/
theorem spec_c6_witness :
    ((calculate_movement detState).2.1 = FlightConfig.FORWARD_SPEED ∧
     (calculate_movement detState).2.2.2 = 0) ∧
    (calculate_movement houghState).2.1 = FlightConfig.FORWARD_SPEED ∧
    (calculate_movement houghState).2.2.2 = 0 :=
  ⟨(spec_c6_forward_yaw detState rfl).1 rfl,
   ((spec_c6_forward_yaw houghState rfl).2 rfl).1 (Or.inl (by norm_num [houghState, detState, baseState])),
   ((spec_c6_forward_yaw houghState rfl).2 rfl).2.2.1 (by norm_num [houghState, detState, baseState, FlightConfig.ROTATION_THRESHOLD])⟩

/-- C9: a cycle whose frame acquisition yields none is skipped entirely:
the state is returned unchanged and no detection, control, command or
supervision output is produced. -/
theorem spec_c9_skip (s : DroneState) (i : CycleInput) (h : i.frame = none) :
    runCycle s i = (s, skipOutput) := by
  unfold runCycle
  rw [h, ite_self]

/-- Witness for C9 at a concrete state and frameless input. -/
theorem spec_c9_witness :
    tKeyInput.frame = none ∧ runCycle groundedState tKeyInput = (groundedState, skipOutput) :=
  ⟨rfl, spec_c9_skip groundedState tKeyInput rfl⟩

/-- C10: land while flying clears autonomous_mode before the actuator
call, so after any land from a flying state autonomous_mode is false even
when the actuator fails; a failed land reports failure and leaves the
state still flying but no longer autonomous. -/
theorem spec_c10_land_clears_auto (s : DroneState) (ok : Bool) (h : s.is_flying = true) :
    (land s ok).2.autonomous_mode = false ∧
    (ok = false →
       land s ok = (false, { s with autonomous_mode := false }) ∧
       (land s ok).2.is_flying = true) := by
  unfold land
  rw [h]
  constructor
  · cases ok <;> simp
  · intro hok
    subst hok
    simp [h]

/-- Witness for C10: failed landing from the flying base state. -/
theorem spec_c10_witness :
    baseState.is_flying = true ∧
    (land baseState false).2.autonomous_mode = false ∧
    (land baseState false).2.is_flying = true :=
  ⟨rfl, (spec_c10_land_clears_auto baseState false rfl).1,
   ((spec_c10_land_clears_auto baseState false rfl).2 rfl).2⟩

/-- Evaluation of the zeroth moment of the small example square. -/
theorem moment00_smallSquare : moment00 smallSquare = 25 := by
  norm_num [moment00, cyclePairs, crossTerm, smallSquare]

/-- Evaluation of the zeroth moment of the big example square. -/
theorem moment00_bigSquare : moment00 bigSquare = 10000 := by
  norm_num [moment00, cyclePairs, crossTerm, bigSquare]

/-- Evaluation of the area of the small example square. -/
theorem area_smallSquare : contourArea smallSquare = 25 := by
  rw [contourArea, moment00_smallSquare]
  norm_num

/-- Evaluation of the area of the big example square. -/
theorem area_bigSquare : contourArea bigSquare = 10000 := by
  rw [contourArea, moment00_bigSquare]
  norm_num

/-- The survivors of the example contour list: only the big square. -/
theorem valid_exContours : valid_contours exContours = [bigSquare] := by
  have h1 : ¬ (VisionConfig.MIN_LINE_AREA < contourArea smallSquare) := by
    rw [area_smallSquare]
    norm_num [VisionConfig.MIN_LINE_AREA]
  have h2 : VisionConfig.MIN_LINE_AREA < contourArea bigSquare := by
    rw [area_bigSquare]
    norm_num [VisionConfig.MIN_LINE_AREA]
  simp [valid_contours, exContours, List.filter_cons, h1, h2]

/-- C7: detect_line_contour discards every contour of area below
MIN_LINE_AREA; with no survivor it reports no detection; with survivors it
reports a detection whose selected contour is a survivor of maximum area,
whose stored center is the truncated first-moment centroid
(m10/m00, m01/m00) of that contour, whose stored box is its bounding
rectangle, and whose derived angle and length are atan2(h, w) in degrees
and the diagonal sqrt(w^2 + h^2) of that box. -/
theorem spec_c7_contour_select (cs : List Contour) :
    (∀ c ∈ cs, contourArea c < VisionConfig.MIN_LINE_AREA → c ∉ valid_contours cs) ∧
    (valid_contours cs = [] → detect_line_contour cs = none) ∧
    (valid_contours cs ≠ [] → (detect_line_contour cs).isSome = true) ∧
    (∀ r : ContourObs, detect_line_contour cs = some r →
       r.main ∈ valid_contours cs ∧
       (∀ c ∈ valid_contours cs, contourArea c ≤ contourArea r.main) ∧
       r.cx = pyInt (moment10 r.main / moment00 r.main) ∧
       r.cy = pyInt (moment01 r.main / moment00 r.main) ∧
       r.bw = (boundingRect r.main).2.2.1 ∧
       r.bh = (boundingRect r.main).2.2.2 ∧
       obsAngle r = atan2R ((boundingRect r.main).2.2.2 : ℝ)
           ((boundingRect r.main).2.2.1 : ℝ) * 180 / Real.pi ∧
       obsLength r = Real.sqrt (((boundingRect r.main).2.2.1 : ℝ) ^ 2 +
           ((boundingRect r.main).2.2.2 : ℝ) ^ 2)) := by
  have hmain : ∀ c rest, valid_contours cs = c :: rest →
      VisionConfig.MIN_LINE_AREA < contourArea (pyMax contourArea c rest) := by
    intro c rest hv
    have hmem : pyMax contourArea c rest ∈ valid_contours cs := by
      rw [hv]
      exact pyMax_mem contourArea c rest
    have := List.of_mem_filter hmem
    simpa using this
  have hm00 : ∀ c rest, valid_contours cs = c :: rest →
      moment00 (pyMax contourArea c rest) ≠ 0 := by
    intro c rest hv h0
    have h1 := hmain c rest hv
    rw [contourArea, h0, abs_zero] at h1
    norm_num [VisionConfig.MIN_LINE_AREA] at h1
  refine ⟨?_, ?_, ?_, ?_⟩
  · intro c _ harea hmem
    have := List.of_mem_filter hmem
    simp only [decide_eq_true_eq] at this
    linarith
  · intro h
    unfold detect_line_contour
    rw [h]
  · intro h
    obtain ⟨c, rest, hv⟩ := List.exists_cons_of_ne_nil h
    unfold detect_line_contour
    rw [hv]
    dsimp only
    rw [if_neg (hm00 c rest hv)]
    rfl
  · intro r hr
    unfold detect_line_contour at hr
    cases hv : valid_contours cs with
    | nil =>
      rw [hv] at hr
      exact Option.noConfusion hr
    | cons c rest =>
      rw [hv] at hr
      dsimp only at hr
      rw [if_neg (hm00 c rest hv)] at hr
      simp only [Option.some.injEq] at hr
      subst hr
      refine ⟨?_, ?_, rfl, rfl, rfl, rfl, rfl, rfl⟩
      · exact pyMax_mem contourArea c rest
      · intro c2 hc2
        exact pyMax_le contourArea c rest c2 hc2

/-- Witness for C7 on a contour list holding a 5x5 noise blob (area 25,
discarded) and a 100x100 square (area 10000, selected): the survivor list
is nonempty and a detection is produced, while the small blob is below
the minimum area and filtered out. -/
theorem spec_c7_witness :
    valid_contours exContours ≠ [] ∧
    (detect_line_contour exContours).isSome = true ∧
    contourArea smallSquare < VisionConfig.MIN_LINE_AREA ∧
    smallSquare ∉ valid_contours exContours := by
  have hne : valid_contours exContours ≠ [] := by
    rw [valid_exContours]
    simp
  have harea : contourArea smallSquare < VisionConfig.MIN_LINE_AREA := by
    rw [area_smallSquare]
    norm_num [VisionConfig.MIN_LINE_AREA]
  exact ⟨hne, (spec_c7_contour_select exContours).2.2.1 hne, harea,
    (spec_c7_contour_select exContours).1 smallSquare (by decide) harea⟩

/-- takeoff never touches the line-lost counter. -/
theorem takeoff_lost_count (s : DroneState) (ok : Bool) (t : ℤ) :
    ((takeoff s ok t).2).line_lost_count = s.line_lost_count := by
  unfold takeoff
  split_ifs <;> rfl

/-- land never touches the line-lost counter. -/
theorem land_lost_count (s : DroneState) (ok : Bool) :
    ((land s ok).2).line_lost_count = s.line_lost_count := by
  unfold land
  split_ifs <;> rfl

/-- emergency_land never touches the line-lost counter. -/
theorem emergency_land_lost_count (s : DroneState) (ok : Bool) :
    ((emergency_land s ok).1).line_lost_count = s.line_lost_count := by
  unfold emergency_land
  split_ifs <;> rfl

/-- update_battery never touches the line-lost counter. -/
theorem update_battery_lost_count (s : DroneState) (read : Option ℤ) (ok : Bool) :
    ((update_battery s read ok).1).line_lost_count = s.line_lost_count := by
  unfold update_battery
  cases read with
  | none => split_ifs <;> rfl
  | some b =>
    dsimp only
    split_ifs <;> simp [emergency_land_lost_count]

/-- send_movement_command never touches the line-lost counter. -/
theorem send_lost_count (s : DroneState) (ok : Bool) :
    ((send_movement_command s ok).1).line_lost_count = s.line_lost_count := by
  unfold send_movement_command
  split_ifs <;> rfl

/-- Key handling never touches the line-lost counter. -/
theorem handle_key_lost_count (s : DroneState) (i : CycleInput) :
    ((handle_key s i).1).line_lost_count = s.line_lost_count := by
  unfold handle_key
  cases i.key <;>
    simp [takeoff_lost_count, land_lost_count, emergency_land_lost_count,
          change_color, cycle_color] <;>
    split_ifs <;>
    simp [takeoff_lost_count, land_lost_count, emergency_land_lost_count]

/-- The autonomous branch never touches the line-lost counter. -/
theorem auto_step_lost_count (s : DroneState) :
    (auto_step s).line_lost_count = s.line_lost_count := by
  simp only [auto_step]
  split_ifs <;> rfl

/-- The loop tail after the counter update leaves the counter alone. -/
theorem cycleTail_lost_count (s : DroneState) (i : CycleInput) :
    ((cycleTail s i).1).line_lost_count = s.line_lost_count := by
  simp only [cycleTail]
  split_ifs <;>
    simp_all [land_lost_count, update_battery_lost_count, handle_key_lost_count,
              send_lost_count]

/-- The vision step sets the counter from the detection outcome: 0 on a
detection, previous value plus one otherwise. -/
theorem vision_step_lost_count (s : DroneState) (det : DetectOutcome) :
    (vision_step s det).line_lost_count =
      if det.detected then 0 else s.line_lost_count + 1 := by
  unfold vision_step
  cases h : det.detected <;> simp [h]

/-- C2: on every cycle that got a frame, the supervisor resets
line_lost_count to 0 when the line was detected and increments it by one
otherwise; and concretely, starting from the flying autonomous baseState
with max_line_lost = 30, thirty consecutive non-detection cycles leave
autonomous mode on with streak 30, while the 31st forces autonomous mode
off with streak 31, leaving the drone flying, with no emergency command
issued on that cycle. -/
theorem spec_c2_line_lost :
    (∀ (s : DroneState) (i : CycleInput) (det : DetectOutcome),
       s.connected = true → i.frame = some det →
       ((det.detected = true → (runCycle s i).1.line_lost_count = 0) ∧
        (det.detected = false →
           (runCycle s i).1.line_lost_count = s.line_lost_count + 1))) ∧
    ((iterLost 30).autonomous_mode = true ∧
     (iterLost 30).line_lost_count = 30 ∧
     (iterLost 31).autonomous_mode = false ∧
     (iterLost 31).line_lost_count = 31 ∧
     (iterLost 31).is_flying = true ∧
     (runCycle (iterLost 30) lostInput).2.emergencyCmd = false) := by
  constructor
  · intro s i det hconn hframe
    have hrun : runCycle s i = cycleTail (auto_step (vision_step s det)) i := by
      unfold runCycle
      rw [hconn, if_pos rfl, hframe]
    constructor <;> intro hdet <;>
      rw [hrun, cycleTail_lost_count, auto_step_lost_count, vision_step_lost_count, hdet] <;>
      rfl
  · refine ⟨?_, ?_, ?_, ?_, ?_, ?_⟩ <;> decide

/-- Witness for C2: one frameful non-detection cycle from the base state
bumps the streak from 0 to 1. -/
theorem spec_c2_witness :
    baseState.connected = true ∧
    (runCycle baseState lostInput).1.line_lost_count = baseState.line_lost_count + 1 :=
  ⟨rfl, (spec_c2_line_lost.1 baseState lostInput
      { detected := false, cx := 0, cy := 0, angle := 0, length := 0 } rfl rfl).2 rfl⟩

/-- takeoff preserves the grounded-implies-manual invariant. -/
theorem gim_takeoff (s : DroneState) (ok : Bool) (t : ℤ)
    (h : GroundedImpliesManual s) : GroundedImpliesManual (takeoff s ok t).2 := by
  unfold takeoff
  split_ifs <;> first | exact h | (intro hf; exact absurd hf (by simp))

/-- land preserves the grounded-implies-manual invariant. -/
theorem gim_land (s : DroneState) (ok : Bool)
    (h : GroundedImpliesManual s) : GroundedImpliesManual (land s ok).2 := by
  unfold land
  split_ifs with h1 h2 <;> intro hf
  · exact h hf
  · rfl
  · rfl

/-- emergency_land preserves the grounded-implies-manual invariant. -/
theorem gim_emergency_land (s : DroneState) (ok : Bool)
    (h : GroundedImpliesManual s) : GroundedImpliesManual (emergency_land s ok).1 := by
  unfold emergency_land
  split_ifs <;> intro hf
  · rfl
  · rfl
  · exact h hf

/-- update_battery preserves the grounded-implies-manual invariant. -/
theorem gim_update_battery (s : DroneState) (read : Option ℤ) (ok : Bool)
    (h : GroundedImpliesManual s) : GroundedImpliesManual (update_battery s read ok).1 := by
  unfold update_battery
  cases read with
  | none => split_ifs <;> exact h
  | some b =>
    dsimp only
    split_ifs with h1 h2 h3
    · exact h
    · exact gim_emergency_land _ ok (fun hf => h hf)
    · exact fun hf => h hf
    · exact fun hf => h hf

/-- send_movement_command preserves the grounded-implies-manual
invariant. -/
theorem gim_send (s : DroneState) (ok : Bool)
    (h : GroundedImpliesManual s) : GroundedImpliesManual (send_movement_command s ok).1 := by
  unfold send_movement_command
  split_ifs <;> exact h

/-- Key handling preserves the grounded-implies-manual invariant. -/
theorem gim_handle_key (s : DroneState) (i : CycleInput)
    (h : GroundedImpliesManual s) : GroundedImpliesManual (handle_key s i).1 := by
  unfold handle_key
  cases i.key
  case kT =>
    dsimp only
    split_ifs <;> first | exact gim_takeoff s i.tovOk i.now h | exact h
  case kL =>
    dsimp only
    split_ifs <;> first | exact gim_land s i.landOk h | exact h
  case kA =>
    dsimp only
    split_ifs with h1
    · intro hf
      rw [Bool.and_eq_true] at h1
      exact absurd hf (by simp [h1.1])
    · exact h
  case kS =>
    dsimp only
    split_ifs
    · exact fun hf => rfl
    · exact h
  case kC => exact fun hf => h hf
  case kH => exact fun hf => h hf
  case kO => exact fun hf => h hf
  case k1 => exact fun hf => h hf
  case k2 => exact fun hf => h hf
  case k3 => exact fun hf => h hf
  case k4 => exact fun hf => h hf
  case k5 => exact fun hf => h hf
  case kEsc => exact gim_emergency_land s i.emgOk h
  case kNone => exact h

/-- The vision step preserves the grounded-implies-manual invariant. -/
theorem gim_vision_step (s : DroneState) (det : DetectOutcome)
    (h : GroundedImpliesManual s) : GroundedImpliesManual (vision_step s det) := by
  unfold vision_step
  dsimp only
  split_ifs <;> exact h

/-- The autonomous branch preserves the grounded-implies-manual
invariant. -/
theorem gim_auto_step (s : DroneState)
    (h : GroundedImpliesManual s) : GroundedImpliesManual (auto_step s) := by
  simp only [auto_step]
  split_ifs <;> first | exact h | (intro hf; rfl)

/-- The loop tail preserves the grounded-implies-manual invariant. -/
theorem gim_cycleTail (s : DroneState) (i : CycleInput)
    (h : GroundedImpliesManual s) : GroundedImpliesManual (cycleTail s i).1 := by
  simp only [cycleTail]
  split_ifs <;> dsimp only <;>
    first
      | exact gim_handle_key _ i (gim_send s i.sendOk h)
      | exact gim_land _ i.landOk (gim_update_battery _ i.batteryRead i.emgOk
          (gim_handle_key _ i (gim_send s i.sendOk h)))
      | exact gim_update_battery _ i.batteryRead i.emgOk
          (gim_handle_key _ i (gim_send s i.sendOk h))
      | exact gim_land _ i.landOk (gim_handle_key _ i (gim_send s i.sendOk h))

/-- C3: takeoff with battery below EMERGENCY_BATTERY fails and changes
nothing; the takeoff key while already flying leaves the whole state
(hence flightElapsed) unchanged; a successful takeoff from a grounded
state turns is_flying on, leaves autonomous_mode at the false value every
reachable grounded state has, and resets the flight clock so that
flightElapsed is 0; and the grounded-implies-manual invariant justifying
that value is preserved by every loop cycle. -/
theorem spec_c3_takeoff :
    (∀ (s : DroneState) (ok : Bool) (t : ℤ),
       s.battery_level < FlightConfig.EMERGENCY_BATTERY → takeoff s ok t = (false, s)) ∧
    (∀ (s : DroneState) (i : CycleInput),
       i.key = Key.kT → s.is_flying = true → handle_key s i = (s, false, false)) ∧
    (∀ (s : DroneState) (t : ℤ),
       s.is_flying = false → s.connected = true →
       FlightConfig.EMERGENCY_BATTERY ≤ s.battery_level → s.autonomous_mode = false →
       takeoff s true t = (true, { s with is_flying := true, flight_start_time := t }) ∧
       (takeoff s true t).2.autonomous_mode = false ∧
       flightElapsed (takeoff s true t).2 t = 0) ∧
    (∀ (s : DroneState) (i : CycleInput),
       GroundedImpliesManual s → GroundedImpliesManual (runCycle s i).1) := by
  refine ⟨?_, ?_, ?_, ?_⟩
  · intro s ok t hb
    unfold takeoff
    split_ifs <;> rfl
  · intro s i hk hf
    unfold handle_key
    rw [hk]
    dsimp only
    rw [hf]
    simp
  · intro s t hf hc hb ha
    have ht : takeoff s true t = (true, { s with is_flying := true, flight_start_time := t }) := by
      unfold takeoff
      rw [hc]
      simp only [Bool.true_eq_false, if_false, if_pos rfl, if_neg (not_lt.mpr hb)]
      simp
    refine ⟨ht, ?_, ?_⟩
    · rw [ht]
      exact ha
    · rw [ht]
      simp [flightElapsed]
  · intro s i h
    unfold runCycle
    cases hframe : (if s.connected then i.frame else none) with
    | none => exact h
    | some det => exact gim_cycleTail _ i (gim_auto_step _ (gim_vision_step s det h))

/-- Witness for C3: low-battery takeoff fails unchanged, the takeoff key
while flying is a no-op, and a successful grounded takeoff at clock 7
flies with autonomous off and flight clock reset. -/
theorem spec_c3_witness :
    groundedLowBat.battery_level < FlightConfig.EMERGENCY_BATTERY ∧
    takeoff groundedLowBat true 5 = (false, groundedLowBat) ∧
    handle_key baseState tKeyInput = (baseState, false, false) ∧
    takeoff groundedState true 7 =
      (true, { groundedState with is_flying := true, flight_start_time := 7 }) ∧
    flightElapsed (takeoff groundedState true 7).2 7 = 0 :=
  ⟨by decide, spec_c3_takeoff.1 groundedLowBat true 5 (by decide),
   spec_c3_takeoff.2.1 baseState tKeyInput rfl rfl,
   (spec_c3_takeoff.2.2.1 groundedState 7 rfl rfl (by decide) rfl).1,
   (spec_c3_takeoff.2.2.1 groundedState 7 rfl rfl (by decide) rfl).2.2⟩

/-- C1 counterexample: from a flying autonomous connected state one frame
before the battery poll, a cycle whose frame shows the line 100 px right
of center and whose poll reads 9 percent (below EMERGENCY_BATTERY = 10)
does invoke the emergency command and leaves the flying state, but the
velocity command sent in that very cycle is (30, 40, 0, 0), not the
all-zero command: the send happens before the battery supervision runs,
and the stored channels are never zeroed. -/
theorem spec_c1_cex :
    prePollState.is_flying = true ∧
    lowBatDetInput.batteryRead = some 9 ∧
    ((9 : ℤ) < FlightConfig.EMERGENCY_BATTERY) ∧
    (runCycle prePollState lowBatDetInput).2.emergencyCmd = true ∧
    (runCycle prePollState lowBatDetInput).1.is_flying = false ∧
    (runCycle prePollState lowBatDetInput).1.battery_level = 9 ∧
    (runCycle prePollState lowBatDetInput).2.sent = some (30, 40, 0, 0) ∧
    (runCycle prePollState lowBatDetInput).2.sent ≠ some (0, 0, 0, 0) ∧
    (runCycle prePollState lowBatDetInput).2.sent ≠ none := by
  refine ⟨?_, ?_, ?_, ?_, ?_, ?_, ?_, ?_, ?_⟩ <;> decide

/-- C1 amended: a battery supervision call that reads a level below
EMERGENCY_BATTERY while flying and connected stores the reading, invokes
the emergency command, clears autonomous_mode and (with the actuator
succeeding) clears is_flying, while leaving the four stored velocity
channels untouched; and once not flying, send_movement_command sends
nothing at all. -/
theorem spec_c1_amended :
    (∀ (s : DroneState) (b : ℤ),
       s.connected = true → s.is_flying = true → b < FlightConfig.EMERGENCY_BATTERY →
       (update_battery s (some b) true).2.1 = true ∧
       (update_battery s (some b) true).1.autonomous_mode = false ∧
       (update_battery s (some b) true).1.is_flying = false ∧
       (update_battery s (some b) true).1.battery_level = b ∧
       (update_battery s (some b) true).1.left_right_velocity = s.left_right_velocity ∧
       (update_battery s (some b) true).1.for_back_velocity = s.for_back_velocity ∧
       (update_battery s (some b) true).1.up_down_velocity = s.up_down_velocity ∧
       (update_battery s (some b) true).1.yaw_velocity = s.yaw_velocity) ∧
    (∀ (s : DroneState) (ok : Bool),
       s.is_flying = false → send_movement_command s ok = (s, none)) := by
  constructor
  · intro s b hc hf hb
    have hu : update_battery s (some b) true =
        ((emergency_land { s with battery_level := b } true).1,
         (emergency_land { s with battery_level := b } true).2, false) := by
      unfold update_battery
      rw [hc]
      dsimp only
      rw [if_neg (by simp), if_pos ⟨hb, hf⟩]
    have he : emergency_land { s with battery_level := b } true =
        ({ s with battery_level := b, autonomous_mode := false, is_flying := false }, true) := by
      unfold emergency_land
      rw [hf, hc]
      simp
    rw [hu, he]
    exact ⟨rfl, rfl, rfl, rfl, rfl, rfl, rfl, rfl⟩
  · intro s ok hf
    unfold send_movement_command
    rw [if_pos (Or.inl hf)]

/-- Witness for the amended C1: the supervision step on the flying base
state with a 9 percent reading invokes the emergency command, drops the
flying flag, and keeps the channels; the grounded state sends nothing. -/
theorem spec_c1_amended_witness :
    (update_battery baseState (some 9) true).2.1 = true ∧
    (update_battery baseState (some 9) true).1.is_flying = false ∧
    (update_battery baseState (some 9) true).1.left_right_velocity =
      baseState.left_right_velocity ∧
    send_movement_command groundedState true = (groundedState, none) :=
  ⟨(spec_c1_amended.1 baseState 9 rfl rfl (by decide)).1,
   (spec_c1_amended.1 baseState 9 rfl rfl (by decide)).2.2.1,
   (spec_c1_amended.1 baseState 9 rfl rfl (by decide)).2.2.2.2.1,
   spec_c1_amended.2 groundedState true rfl⟩
